import Mathlib

/-!
# Verification of the bitcoin-beast-framework wallet/builder core

A shallow embedding of the reconciliation and conflict-construction logic of
the repository:

* `src/wallet-engine.js` — `BitcoinWalletEngine`: UTXO/mempool fetch
  normalization, `calculateBalances`, `removeAddress`, the websocket monitor
  lifecycle, `getFullStatus`.
* `src/bitcoin-beast-framework.js` — the conflicting-transaction builder
  endpoints `/api/final-sequence-attack` and `/api/identical-inputs-exploit`.
* `src/unnamed/part_000` — the cached `GET /utxos` route (30 s TTL cache).
* `src/routes/wallet-routes.js` — the `GET /wallet/balance` and
  `GET /wallet/utxos` routes.

JS numbers that the code only ever uses as sat amounts are modelled as `Nat`
(upstream values are non-negative); subtraction that can go negative in JS is
modelled over `Int`; fractional fee rates are modelled as `ℚ`.  Network I/O is
modelled by passing the upstream response (or its failure) as an argument.
-/

/-! ## Upstream (indexer) data, as consumed by the normalizers -/

/-- The `status` object of an entry of the indexer's per-address UTXO list:
`{confirmed, block_height?, block_time?}`. -/
structure RawStatus where
  confirmed : Bool
  block_height : Option Nat
  block_time : Option Nat
deriving DecidableEq, Repr

/-- One entry of the indexer's per-address UTXO list. -/
structure RawUtxo where
  txid : String
  vout : Nat
  value : Nat
  status : RawStatus
deriving DecidableEq, Repr

/-- One output of an upstream transaction (`vout` array element). -/
structure RawVout where
  scriptpubkey_address : String
  value : Nat
deriving DecidableEq, Repr

/-- One entry of the indexer's per-address mempool transaction list. -/
structure RawMempoolTx where
  txid : String
  fee : Nat
  vsize : Nat
  rbf : Option Bool
  vout : List RawVout
deriving DecidableEq, Repr

/-- JS truthiness of a possibly-absent number: absent and `0` are falsy. -/
def jsTruthyNat : Option Nat → Bool
  | none => false
  | some n => n != 0

/-- JS `x || null` on a possibly-absent number: keeps `x` only when truthy. -/
def jsOrNull (o : Option Nat) : Option Nat :=
  if jsTruthyNat o then o else none

/-! ## wallet-engine.js: fetch normalization -/

/-- A UTXO record as stored in `this.utxos[address]` by
`BitcoinWalletEngine.fetchUtxos` (wallet-engine.js lines 87–96). -/
structure EngineUtxo where
  txid : String
  vout : Nat
  value : Nat
  confirmations : Nat
  block_height : Option Nat
  block_time : Option Nat
  is_confirmed : Bool
  is_pending : Bool
deriving DecidableEq, Repr

/-- wallet-engine.js `fetchUtxos` mapping of one upstream UTXO:
`confirmations: utxo.status.confirmed ? (utxo.status.block_height ? 1 : 0) : 0`,
`block_height: utxo.status.block_height || null`, and the derived flags. -/
def engineNormalizeUtxo (u : RawUtxo) : EngineUtxo :=
  { txid := u.txid
    vout := u.vout
    value := u.value
    confirmations :=
      if u.status.confirmed then (if jsTruthyNat u.status.block_height then 1 else 0) else 0
    block_height := jsOrNull u.status.block_height
    block_time := jsOrNull u.status.block_time
    is_confirmed := u.status.confirmed
    is_pending := !u.status.confirmed }

/-- A mempool record as stored in `this.mempool_txs[address]` by
`BitcoinWalletEngine.fetchMempoolTxs` (wallet-engine.js lines 118–138).
The JS keys the records by txid in an object; the collection is modelled as
the list of the records. -/
structure MempoolTx where
  txid : String
  confirmations : Nat
  fee : Nat
  fee_rate : ℚ
  vsize : Nat
  rbf : Bool
  timestamp : Nat
  is_incoming : Bool
  amount : Nat
deriving DecidableEq, Repr

/-- `fetchMempoolTxs` receive amount of one upstream transaction: the sum of
`tx.vout` values whose `scriptpubkey_address` equals the monitored address. -/
def mempoolRxAmt (address : String) (tx : RawMempoolTx) : Nat :=
  ((tx.vout.filter (fun out => out.scriptpubkey_address = address)).map (·.value)).sum

/-- `fetchMempoolTxs` mapping of one upstream mempool transaction
(wallet-engine.js lines 126–137); `now` is the `Date.now()` observation stamp.
JS computes `fee / vsize` in floating point; it is modelled in `ℚ`
(`vsize` is positive for any real transaction). -/
def engineNormalizeMempoolTx (address : String) (now : Nat) (tx : RawMempoolTx) : MempoolTx :=
  let rx_amt := mempoolRxAmt address tx
  { txid := tx.txid
    confirmations := 0
    fee := tx.fee
    fee_rate := (tx.fee : ℚ) / (tx.vsize : ℚ)
    vsize := tx.vsize
    rbf := tx.rbf.getD false
    timestamp := now
    is_incoming := decide (0 < rx_amt)
    amount := rx_amt }

/-! ## wallet-engine.js: balance classifier -/

/-- The thresholds of `this.config` (wallet-engine.js lines 37–42). -/
structure EngineConfig where
  min_confirmations_spendable : Nat
  min_confirmations_safe : Nat
deriving DecidableEq, Repr

/-- The defaults: `min_confirmations_spendable: 1, min_confirmations_safe: 6`. -/
def defaultEngineConfig : EngineConfig :=
  { min_confirmations_spendable := 1, min_confirmations_safe := 6 }

/-- The record returned by `calculateBalances`; `last_updated` is the
`new Date().toISOString()` stamp, modelled as the numeric clock value. -/
structure Balance where
  address : String
  total_balance : Nat
  spendable_balance : Nat
  pending_balance : Nat
  unspendable_balance : Nat
  utxo_count : Nat
  mempool_tx_count : Nat
  last_updated : Nat
deriving DecidableEq, Repr

/-- `BitcoinWalletEngine.calculateBalances` (wallet-engine.js lines 150–188):
confirmed = Σ value of utxos with `is_confirmed` and
`confirmations ≥ min_confirmations_spendable`; pending = Σ value of utxos with
`is_pending` plus Σ `amount` of mempool records with `is_incoming`;
unspendable = Σ value of confirmed utxos below the spendable threshold.
The mempool sum is added with no de-duplication against the utxo list. -/
def calculateBalances (cfg : EngineConfig) (now : Nat) (address : String)
    (utxos : List EngineUtxo) (mempool : List MempoolTx) : Balance :=
  let confirmed_balance :=
    ((utxos.filter (fun u =>
      u.is_confirmed && cfg.min_confirmations_spendable ≤ u.confirmations)).map (·.value)).sum
  let pending_balance :=
    ((utxos.filter (·.is_pending)).map (·.value)).sum
      + ((mempool.filter (·.is_incoming)).map (·.amount)).sum
  let unspendable_balance :=
    ((utxos.filter (fun u =>
      u.is_confirmed && u.confirmations < cfg.min_confirmations_spendable)).map (·.value)).sum
  { address := address
    total_balance := confirmed_balance + pending_balance
    spendable_balance := confirmed_balance
    pending_balance := pending_balance
    unspendable_balance := unspendable_balance
    utxo_count := utxos.length
    mempool_tx_count := mempool.length
    last_updated := now }

/-! ## wallet-engine.js: engine state and lifecycle

JS objects used as string-keyed maps (`this.utxos`, `this.mempool_txs`, …)
are modelled as association lists; assignment `m[k] = v` is `insertKey`,
`delete m[k]` is `eraseKey`, `m[k]` is `lookupKey`. -/

/-- JS `delete m[k]`. -/
def eraseKey {α : Type} (k : String) (l : List (String × α)) : List (String × α) :=
  l.filter (fun p => p.1 ≠ k)

/-- JS `m[k] = v`. -/
def insertKey {α : Type} (k : String) (v : α) (l : List (String × α)) : List (String × α) :=
  (k, v) :: eraseKey k l

/-- JS `m[k]` (`none` models `undefined`). -/
def lookupKey {α : Type} (k : String) : List (String × α) → Option α
  | [] => none
  | (k', v) :: rest => if k' = k then some v else lookupKey k rest

/-- The mutable state of a `BitcoinWalletEngine` together with the dynamic
state of its websocket monitors.  `websockets` holds the addresses with an
entry in `this.websockets`; `pendingClose` holds connections that have been
closed but whose `close` event has not yet been delivered; `pendingRetry`
holds addresses with a scheduled 5 s `setTimeout` reconnect
(wallet-engine.js line 228). -/
structure EngineState where
  addresses : List String
  utxos : List (String × List EngineUtxo)
  transactions : List (String × List String)
  mempool_txs : List (String × List MempoolTx)
  websockets : List String
  pendingClose : List String
  pendingRetry : List String
deriving DecidableEq, Repr

/-- `BitcoinWalletEngine.removeAddress` (wallet-engine.js lines 67–77):
filters the address out of `this.addresses`, deletes its three map entries,
and if a websocket is open, calls `ws.close()` (the connection will later
deliver a `close` event, modelled by `pendingClose`) and deletes the handle. -/
def removeAddress (s : EngineState) (a : String) : EngineState :=
  { s with
    addresses := s.addresses.filter (· ≠ a)
    utxos := eraseKey a s.utxos
    transactions := eraseKey a s.transactions
    mempool_txs := eraseKey a s.mempool_txs
    websockets := if s.websockets.contains a then s.websockets.erase a else s.websockets
    pendingClose := if s.websockets.contains a then a :: s.pendingClose else s.pendingClose }

/-- `BitcoinWalletEngine.startWebSocketMonitor` (wallet-engine.js lines
191–233): a no-op when `this.websockets[address]` exists, otherwise it opens
a new connection and stores the handle. -/
def startWebSocketMonitor (s : EngineState) (a : String) : EngineState :=
  if s.websockets.contains a then s
  else { s with websockets := a :: s.websockets }

/-- Delivery of the `close` event of a connection released earlier: the
handler (wallet-engine.js lines 226–229) unconditionally schedules
`setTimeout(() => this.startWebSocketMonitor(address), 5000)`. -/
def wsCloseEvent (s : EngineState) (a : String) : EngineState :=
  if s.pendingClose.contains a then
    { s with pendingClose := s.pendingClose.erase a, pendingRetry := a :: s.pendingRetry }
  else s

/-- The scheduled 5 s retry timer fires and runs `startWebSocketMonitor`. -/
def retryTimerFires (s : EngineState) (a : String) : EngineState :=
  if s.pendingRetry.contains a then
    startWebSocketMonitor { s with pendingRetry := s.pendingRetry.erase a } a
  else s

/-- Completion of a successful `fetchUtxos(address)` call (wallet-engine.js
line 98): the normalized result is written back with
`this.utxos[address] = utxos`, unconditionally — there is no check that the
address is still monitored. -/
def fetchUtxosOk (s : EngineState) (a : String) (raw : List RawUtxo) : EngineState :=
  { s with utxos := insertKey a (raw.map engineNormalizeUtxo) s.utxos }

/-- Completion of a failed `fetchUtxos(address)` call (wallet-engine.js lines
101–104): the state is untouched and `[]` is returned to the caller. -/
def fetchUtxosErr (s : EngineState) (_a : String) : EngineState × List EngineUtxo :=
  (s, [])

/-- Completion of a successful `fetchMempoolTxs(address)` call
(wallet-engine.js line 140): `this.mempool_txs[address] = mempool_txs`. -/
def fetchMempoolTxsOk (s : EngineState) (a : String) (now : Nat)
    (raw : List RawMempoolTx) : EngineState :=
  { s with mempool_txs := insertKey a (raw.map (engineNormalizeMempoolTx a now)) s.mempool_txs }

/-- One entry of the object returned by `getFullStatus`. -/
structure FullStatusEntry where
  balance : Balance
  utxos : List EngineUtxo
  mempool_txs : List MempoolTx
deriving DecidableEq, Repr

/-- `BitcoinWalletEngine.getFullStatus` (wallet-engine.js lines 268–278):
builds one entry per element of `this.addresses`, reading the maps with a
`|| []` default. -/
def getFullStatus (s : EngineState) (now : Nat) : List (String × FullStatusEntry) :=
  s.addresses.map (fun a =>
    (a, { balance := calculateBalances defaultEngineConfig now a
            ((lookupKey a s.utxos).getD []) ((lookupKey a s.mempool_txs).getD [])
          utxos := (lookupKey a s.utxos).getD []
          mempool_txs := (lookupKey a s.mempool_txs).getD [] }))

/-! ## routes/wallet-routes.js: `GET /wallet/balance` (engine-backed router)

The handler (second router of the file, lines 220–243) awaits
`fetchUtxos(address)` and `fetchMempoolTxs(address)` — a fresh upstream
round-trip on every call, no cache — and responds with
`walletEngine.calculateBalances(address)`.  The upstream responses are passed
as arguments. -/

/-- One `GET /wallet/balance` request: returns the response body and the
engine state after the two fetch completions. -/
def walletBalanceCall (s : EngineState) (a : String) (now : Nat)
    (rawUtxos : List RawUtxo) (rawMempool : List RawMempoolTx) :
    Balance × EngineState :=
  let s1 := fetchUtxosOk s a rawUtxos
  let s2 := fetchMempoolTxsOk s1 a now rawMempool
  (calculateBalances defaultEngineConfig now a
    ((lookupKey a s2.utxos).getD []) ((lookupKey a s2.mempool_txs).getD []), s2)

/-! ## bitcoin-beast-framework.js: the conflicting-transaction builder

`/api/final-sequence-attack` (lines 174–254) and
`/api/identical-inputs-exploit` (lines 393–472).  The cryptographic
collaborators (WIF parsing, address decoding, signing) are external; their
validation outcomes enter the model as booleans.  `Psbt.addOutput` of the
serialization library rejects an output value that is not an integer in
`[0, SATOSHI_MAX]`; inside the route's `try` block that throw is caught by
the catch-all and becomes a generic 500 response. -/

/-- Maximum sequence value, signalling a final (non-replaceable) input. -/
def SEQ_FINAL : Nat := 0xffffffff

/-- The sequence value the code assigns to the candidate it labels
"RBF enabled": `0xfffffffe`. -/
def SEQ_CODE_RBF : Nat := 0xfffffffe

/-- The BIP125 opt-in threshold: a transaction signals replaceability iff
some input's sequence is strictly below `0xfffffffe`. -/
def RBF_THRESHOLD : Nat := 0xfffffffe

/-- BIP125 replaceability signalling of a single-input transaction. -/
def rbfSignaling (seq : Nat) : Bool := seq < RBF_THRESHOLD

/-- The serialization library's upper bound on an output value
(21,000,000 BTC in sats). -/
def SATOSHI_MAX : Int := 2100000000000000

/-- The `utxo` descriptor of a build request: `{txid, vout, value}`. -/
structure UtxoRef where
  txid : String
  vout : Nat
  value : Nat
deriving DecidableEq, Repr

/-- An outpoint: (previous txid, output index). -/
structure Outpoint where
  txid : String
  vout : Nat
deriving DecidableEq, Repr

/-- One signed candidate transaction as the endpoints report it: the single
input's outpoint and sequence, the single destination, the output value and
the fee.  Over `Int`, `outputValue = value − fee` exactly. -/
structure Candidate where
  input : Outpoint
  sequence : Nat
  dest : String
  outputValue : Int
  fee : Int
deriving DecidableEq, Repr

/-- An endpoint failure: a 400 validation response or a 500 response from the
catch-all around a thrown library error. -/
inductive ApiError where
  | badRequest (msg : String)
  | internal (msg : String)
deriving DecidableEq, Repr

/-- The (abbreviated) message of the serialization library's output-value
range check. -/
def satoshiRangeMsg : String := "Expected Satoshi"

/-- Constructing one candidate: compute the output value `value − fee`, let
the serialization library range-check it (throwing, i.e. `.error .internal`,
outside `[0, SATOSHI_MAX]`) and record outpoint, sequence and destination. -/
def buildCandidate (u : UtxoRef) (seq : Nat) (dest : String) (fee : Int) :
    Except ApiError Candidate :=
  if 0 ≤ (u.value : Int) - fee ∧ (u.value : Int) - fee ≤ SATOSHI_MAX then
    .ok { input := { txid := u.txid, vout := u.vout }
          sequence := seq, dest := dest, outputValue := (u.value : Int) - fee, fee := fee }
  else
    .error (.internal satoshiRangeMsg)

/-- JS `Math.ceil` on the (rational-valued) fee arithmetic. -/
def jsCeil (q : ℚ) : Int := Int.ceil q

/-- A `/api/final-sequence-attack` request body.  The `*_valid` flags are the
outcomes of the external `validateWIF` / `validateAddress` collaborators;
`fields_present` is the presence check of the four required fields. -/
structure FsaRequest where
  utxo : UtxoRef
  victim_address : String
  attacker_address : String
  fee_rate : ℚ
  fields_present : Bool
  wif_valid : Bool
  victim_valid : Bool
  attacker_valid : Bool
deriving DecidableEq, Repr

/-- The success body of `/api/final-sequence-attack`: the two conflicting
candidates. -/
structure FsaResponse where
  tx_merchant : Candidate
  tx_attacker : Candidate
deriving DecidableEq, Repr

/-- `/api/final-sequence-attack` (bitcoin-beast-framework.js lines 174–254):
after the three validation gates, candidate 1 pays the victim with sequence
`0xffffffff` and fee `Math.ceil(150 * fee_rate)`; candidate 2 pays the
attacker from the same outpoint with sequence `0xfffffffe` and fee
`Math.ceil(150 * (fee_rate * 1.5))`. -/
def finalSequenceAttack (r : FsaRequest) : Except ApiError FsaResponse :=
  if !r.fields_present then
    .error (.badRequest "Missing required fields: wif, utxo, victim_address, attacker_address")
  else if !r.wif_valid then
    .error (.badRequest "Invalid WIF for network")
  else if !r.victim_valid || !r.attacker_valid then
    .error (.badRequest "Invalid address(es) for network")
  else
    match buildCandidate r.utxo SEQ_FINAL r.victim_address (jsCeil (150 * r.fee_rate)) with
    | .error e => .error e
    | .ok tx1 =>
      match buildCandidate r.utxo SEQ_CODE_RBF r.attacker_address
          (jsCeil (150 * (r.fee_rate * (3 / 2 : ℚ)))) with
      | .error e => .error e
      | .ok tx2 => .ok { tx_merchant := tx1, tx_attacker := tx2 }

/-- One element of the `tx_pairs` array of `/api/identical-inputs-exploit`. -/
structure TxPair where
  sharedInput : UtxoRef
  tx_merchant : Candidate
  tx_attacker : Candidate
deriving DecidableEq, Repr

/-- One iteration of the `utxos.forEach` loop of
`/api/identical-inputs-exploit` (lines 411–462): the merchant candidate with
sequence `0xffffffff` and flat fee 3000, the attacker candidate from the same
outpoint with sequence `0xfffffffe` and flat fee 5000. -/
def identicalInputsPair (u : UtxoRef) (merchant attacker : String) :
    Except ApiError TxPair :=
  match buildCandidate u SEQ_FINAL merchant 3000 with
  | .error e => .error e
  | .ok tx1 =>
    match buildCandidate u SEQ_CODE_RBF attacker 5000 with
    | .error e => .error e
    | .ok tx2 => .ok { sharedInput := u, tx_merchant := tx1, tx_attacker := tx2 }

/-- A `/api/identical-inputs-exploit` request body. -/
structure IieRequest where
  utxos : List UtxoRef
  merchant_address : String
  attacker_address : String
  fields_present : Bool
  wif_valid : Bool
  merchant_valid : Bool
  attacker_valid : Bool
deriving DecidableEq, Repr

/-- `/api/identical-inputs-exploit` (lines 393–472): validation gates, then
the per-UTXO loop; a throw inside the loop aborts the whole request through
the catch-all. -/
def identicalInputsExploit (r : IieRequest) : Except ApiError (List TxPair) :=
  if !r.fields_present then .error (.badRequest "Missing fields")
  else if !r.wif_valid then .error (.badRequest "Invalid WIF")
  else if !r.merchant_valid || !r.attacker_valid then .error (.badRequest "Invalid address")
  else r.utxos.mapM (identicalInputsPair · r.merchant_address r.attacker_address)

/-- First component of a successful build, if any. -/
def exceptOk {ε α : Type} : Except ε α → Option α
  | .ok a => some a
  | .error _ => none

/-! ## unnamed/part_000: cached `GET /utxos` route

The first router of the file: a module-level `utxo_cache` keyed by
`network:address` with `CACHE_TTL = 30 * 1000` ms, the per-UTXO normalization
of lines 107–140, and the hit / miss / failure branches of the handler
(lines 61–181).  The optional fiat annotation and the `value_btc` float are
presentation-only and omitted. -/

/-- The cache TTL: 30 seconds, in milliseconds. -/
def CACHE_TTL : Nat := 30 * 1000

/-- A UTXO record as normalized by the part_000 `/utxos` route
(and, with the same formulas, by the `GET /wallet/utxos` route of
routes/wallet-routes.js lines 94–113). -/
structure P0Utxo where
  txid : String
  vout : Nat
  value_sat : Nat
  confirmations : Nat
  block_height : Option Nat
  block_time : Option Nat
  is_confirmed : Bool
  is_pending : Bool
  is_spendable : Bool
  spendable_value : Nat
  pending_value : Nat
  effective_value : Nat
deriving DecidableEq, Repr

/-- part_000 `/utxos` normalization of one upstream UTXO (lines 107–140):
`confirmations: isConfirmed ? 1 : 0` (no block-height condition),
`is_spendable: isConfirmed`, `effective_value: Math.max(0, valueSat - 150)`
(`Nat` subtraction truncates at 0 identically). -/
def p0NormalizeUtxo (u : RawUtxo) : P0Utxo :=
  let isConfirmed := u.status.confirmed
  { txid := u.txid
    vout := u.vout
    value_sat := u.value
    confirmations := if isConfirmed then 1 else 0
    block_height := if jsTruthyNat u.status.block_height then u.status.block_height else none
    block_time := if jsTruthyNat u.status.block_time then u.status.block_time else none
    is_confirmed := isConfirmed
    is_pending := !isConfirmed
    is_spendable := isConfirmed
    spendable_value := if isConfirmed then u.value else 0
    pending_value := if !isConfirmed then u.value else 0
    effective_value := u.value - 150 }

/-- `GET /wallet/utxos` normalization (routes/wallet-routes.js lines
94–113): the same fields and formulas as the part_000 route. -/
def wrNormalizeUtxo (u : RawUtxo) : P0Utxo :=
  let isConfirmed := u.status.confirmed
  { txid := u.txid
    vout := u.vout
    value_sat := u.value
    confirmations := if isConfirmed then 1 else 0
    block_height := if jsTruthyNat u.status.block_height then u.status.block_height else none
    block_time := if jsTruthyNat u.status.block_time then u.status.block_time else none
    is_confirmed := isConfirmed
    is_pending := !isConfirmed
    is_spendable := isConfirmed
    spendable_value := if isConfirmed then u.value else 0
    pending_value := if !isConfirmed then u.value else 0
    effective_value := u.value - 150 }

/-- One entry of the module-level `utxo_cache`. -/
structure CacheEntry where
  data : List P0Utxo
  timestamp : Nat
deriving DecidableEq, Repr

/-- The `utxo_cache`, keyed by the `network:address` string. -/
abbrev UtxoCache := List (String × CacheEntry)

/-- The outcome of the upstream `axios.get(…/address/…/utxo)` round-trip. -/
inductive FetchOutcome where
  | ok (raw : List RawUtxo)
  | notFound
  | failure (msg : String)
deriving DecidableEq, Repr

/-- The response of the part_000 `/utxos` handler, reduced to the branches:
a success body (utxo list, `cached` flag, `cache_age_ms` when cached), the
graceful not-found body (empty list), or a 500 error body. -/
inductive UtxosResponse where
  | success (utxos : List P0Utxo) (cached : Bool) (cache_age_ms : Option Nat)
  | notFound
  | serverError (msg : String)
deriving DecidableEq, Repr

/-- The miss branch of the part_000 `/utxos` handler: normalize, apply the
`onlySpendable` filter, store the (filtered) list in the cache, respond
`cached: false`; a 404 answers the graceful empty body and any other failure
answers a 500 — in both failure branches the cache is not touched. -/
def p0FetchBranch (cache : UtxoCache) (key : String) (now : Nat)
    (onlySpendable : Bool) (fetch : FetchOutcome) : UtxosResponse × UtxoCache :=
  match fetch with
  | .ok raw =>
    let us := raw.map p0NormalizeUtxo
    let us := if onlySpendable then us.filter (·.is_spendable) else us
    (.success us false none, insertKey key { data := us, timestamp := now } cache)
  | .notFound => (.notFound, cache)
  | .failure msg => (.serverError msg, cache)

/-- The part_000 `GET /utxos` handler (lines 61–181): a cache entry younger
than `CACHE_TTL` is served with `cached: true` and its `cache_age_ms`
(with the `onlySpendable` filter applied on the fly); otherwise the upstream
fetch outcome decides the response. -/
def getUtxosHandler (cache : UtxoCache) (key : String) (now : Nat)
    (onlySpendable : Bool) (fetch : FetchOutcome) : UtxosResponse × UtxoCache :=
  match lookupKey key cache with
  | some e =>
    if now - e.timestamp < CACHE_TTL then
      let us := if onlySpendable then e.data.filter (·.is_spendable) else e.data
      (.success us true (some (now - e.timestamp)), cache)
    else
      p0FetchBranch cache key now onlySpendable fetch
  | none => p0FetchBranch cache key now onlySpendable fetch

/-! ## wallet-engine.js: engine construction -/

/-- A freshly constructed `BitcoinWalletEngine` (wallet-engine.js lines
16–46): empty address list and empty maps. -/
def engineInit : EngineState :=
  { addresses := [], utxos := [], transactions := [], mempool_txs := []
    websockets := [], pendingClose := [], pendingRetry := [] }

/-- `BitcoinWalletEngine.addAddress` (wallet-engine.js lines 56–64): a no-op
when already present, otherwise pushes the address and initializes its three
map entries. -/
def addAddress (s : EngineState) (a : String) : EngineState :=
  if s.addresses.contains a then s
  else
    { s with
      addresses := s.addresses ++ [a]
      utxos := insertKey a [] s.utxos
      transactions := insertKey a [] s.transactions
      mempool_txs := insertKey a [] s.mempool_txs }

/-! ## Concrete inputs used by the closed theorems and witnesses -/

/-- A demo monitored address. -/
def aDemo : String := "tb1qdemoaddr"

/-- A fresh engine monitoring `aDemo`. -/
def engineDemoState : EngineState := addAddress engineInit aDemo

/-- An unconfirmed upstream UTXO of 20,000 sat funded by transaction `dup`. -/
def rawDupUtxo : RawUtxo :=
  { txid := "dup", vout := 0, value := 20000
    status := { confirmed := false, block_height := none, block_time := none } }

/-- The same economic event seen through the mempool endpoint: the
unconfirmed transaction `dup` paying 20,000 sat to `aDemo`. -/
def rawDupMempoolTx : RawMempoolTx :=
  { txid := "dup", fee := 110, vsize := 141, rbf := none
    vout := [{ scriptpubkey_address := aDemo, value := 20000 }] }

/-- A confirmed upstream UTXO (height 2,900,000) of 50,000 sat. -/
def rawConfDemo : RawUtxo :=
  { txid := "conf", vout := 1, value := 50000
    status := { confirmed := true, block_height := some 2900000
                block_time := some 1720000000 } }

/-- The engine with `aDemo` monitored and its UTXO cache populated. -/
def engineCachedState : EngineState :=
  fetchUtxosOk engineDemoState aDemo [rawConfDemo]

/-- The engine with `aDemo` monitored and its websocket monitor running. -/
def engineMonitoredState : EngineState :=
  startWebSocketMonitor engineDemoState aDemo

/-- The Scenario A build request: one 100,000 sat input, fee rate
15 sat/vB, every validation passing. -/
def fsaDemoReq : FsaRequest :=
  { utxo := { txid := "aa99", vout := 0, value := 100000 }
    victim_address := "tb1qvictim", attacker_address := "tb1qattacker"
    fee_rate := 15
    fields_present := true, wif_valid := true
    victim_valid := true, attacker_valid := true }

/-- A build request whose attacker candidate computes output value exactly 0:
input 3,375 sat at fee rate 15 (tx2 fee = ceil(150 × 22.5) = 3,375). -/
def fsaZeroReq : FsaRequest :=
  { fsaDemoReq with utxo := { txid := "aa99", vout := 0, value := 3375 } }

/-- A build request whose merchant candidate computes a negative output
value: input 1,000 sat at fee rate 15 (tx1 fee = 2,250). -/
def fsaNegReq : FsaRequest :=
  { fsaDemoReq with utxo := { txid := "aa99", vout := 0, value := 1000 } }

/-- The response `/api/final-sequence-attack` produces for `fsaDemoReq`. -/
def fsaDemoResp : FsaResponse :=
  { tx_merchant :=
      { input := { txid := "aa99", vout := 0 }, sequence := SEQ_FINAL
        dest := "tb1qvictim", outputValue := 97750, fee := 2250 }
    tx_attacker :=
      { input := { txid := "aa99", vout := 0 }, sequence := SEQ_CODE_RBF
        dest := "tb1qattacker", outputValue := 96625, fee := 3375 } }

/-- A demo `utxos` element for the identical-inputs endpoint. -/
def iieDemoUtxo : UtxoRef := { txid := "bb88", vout := 2, value := 40000 }

/-- A normalized part_000 UTXO present in the demo cache. -/
def p0DemoUtxo : P0Utxo := p0NormalizeUtxo rawConfDemo

/-- The demo cache key. -/
def p0DemoKey : String := "testnet:tb1qdemoaddr"

/-- The demo cache entry, stored at time 0. -/
def p0DemoEntry : CacheEntry := { data := [p0DemoUtxo], timestamp := 0 }

/-- The demo cache holding one previously fetched entry. -/
def p0DemoCache : UtxoCache := [(p0DemoKey, p0DemoEntry)]

/-- Whether a part_000 `/utxos` response is a success body. -/
def isSuccessResponse : UtxosResponse → Bool
  | .success _ _ _ => true
  | _ => false

/-- The successful payload of an endpoint result, if any. -/
def fsaSeqs (x : Except ApiError FsaResponse) : Option (Nat × Nat) :=
  (exceptOk x).map (fun resp => (resp.tx_merchant.sequence, resp.tx_attacker.sequence))

/-- Sequences of the two candidates of one identical-inputs pair. -/
def pairSeqs (x : Except ApiError TxPair) : Option (Nat × Nat) :=
  (exceptOk x).map (fun p => (p.tx_merchant.sequence, p.tx_attacker.sequence))

/-- Fees, output values and outpoints of a final-sequence-attack response. -/
def fsaData (x : Except ApiError FsaResponse) :
    Option (Int × Int × Int × Int × Outpoint × Outpoint) :=
  (exceptOk x).map (fun resp =>
    (resp.tx_merchant.fee, resp.tx_merchant.outputValue,
     resp.tx_attacker.fee, resp.tx_attacker.outputValue,
     resp.tx_merchant.input, resp.tx_attacker.input))

/-- The attacker candidate's output value of a successful response. -/
def fsaAttackerOut (x : Except ApiError FsaResponse) : Option Int :=
  (exceptOk x).map (fun resp => resp.tx_attacker.outputValue)

/-! ## Helper lemmas -/

/-- Evaluation of the ceiling model on an integer-valued rational. -/
theorem jsCeil_intCast (n : ℤ) : jsCeil ((n : ℚ)) = n := by simp [jsCeil]

/-- Inversion of a successful candidate build: the output value and fee sum
to the input value exactly, and outpoint and sequence are the requested
ones. -/
theorem buildCandidate_ok (u : UtxoRef) (seq : Nat) (dest : String) (fee : Int) (c : Candidate)
    (h : buildCandidate u seq dest fee = .ok c) :
    c.outputValue + c.fee = (u.value : Int) ∧
    c.input = { txid := u.txid, vout := u.vout } ∧ c.sequence = seq ∧ c.fee = fee := by
  unfold buildCandidate at h
  split at h
  · cases h
    refine ⟨?_, rfl, rfl, rfl⟩
    show (u.value : Int) - fee + fee = (u.value : Int)
    omega
  · simp at h

/-- A key that is in none of the pairs produced by mapping over a list it
does not belong to is not found. -/
theorem lookupKey_map_eq_none {α : Type} (l : List String) (f : String → α) (a : String)
    (ha : a ∉ l) : lookupKey a (l.map (fun x => (x, f x))) = none := by
  induction l with
  | nil => rfl
  | cons x xs ih =>
    simp only [List.map, lookupKey]
    rw [if_neg, ih (fun hm => ha (List.mem_cons_of_mem _ hm))]
    intro hxa
    exact ha (hxa ▸ List.mem_cons_self x xs)

/-- Looking up a freshly assigned key. -/
theorem lookupKey_insertKey {α : Type} (k : String) (v : α) (l : List (String × α)) :
    lookupKey k (insertKey k v l) = some v := by
  simp [insertKey, lookupKey]

/-- The balance body of one `GET /wallet/balance` call is the classifier
applied to the two freshly normalized upstream responses. -/
theorem walletBalanceCall_fst (s : EngineState) (a : String) (now : Nat)
    (raws : List RawUtxo) (rawm : List RawMempoolTx) :
    (walletBalanceCall s a now raws rawm).1 =
      calculateBalances defaultEngineConfig now a (raws.map engineNormalizeUtxo)
        (rawm.map (engineNormalizeMempoolTx a now)) := by
  unfold walletBalanceCall fetchUtxosOk fetchMempoolTxsOk
  simp [lookupKey_insertKey]

/-- The incoming-mempool sum of the classifier does not depend on the
observation timestamp the normalizer stamps onto the records. -/
theorem mempool_incoming_sum_indep (a : String) (t t' : Nat) (rawm : List RawMempoolTx) :
    ((((rawm.map (engineNormalizeMempoolTx a t)).filter (·.is_incoming)).map (·.amount)).sum =
     (((rawm.map (engineNormalizeMempoolTx a t')).filter (·.is_incoming)).map (·.amount)).sum) := by
  induction rawm with
  | nil => rfl
  | cons x xs ih =>
    by_cases hx : (0 < mempoolRxAmt a x)
    · simp only [List.map_cons, List.filter_cons]
      have h1 : (engineNormalizeMempoolTx a t x).is_incoming = true := by
        simp [engineNormalizeMempoolTx, hx]
      have h2 : (engineNormalizeMempoolTx a t' x).is_incoming = true := by
        simp [engineNormalizeMempoolTx, hx]
      rw [h1, h2]
      simp only [if_pos trivial]
      simp [engineNormalizeMempoolTx, ih]
    · simp only [List.map_cons, List.filter_cons]
      have h1 : (engineNormalizeMempoolTx a t x).is_incoming = false := by
        simp [engineNormalizeMempoolTx, hx]
      have h2 : (engineNormalizeMempoolTx a t' x).is_incoming = false := by
        simp [engineNormalizeMempoolTx, hx]
      rw [h1, h2]
      simpa using ih

/-! ## Claim theorems -/

/-- Claim C1 (code is wrong): the Balance Classifier is supposed to count
each economic event exactly once, de-duplicating mempool receive amounts by
outpoint against the cached unspent outputs.  Evaluating the code at the
failing input — one unconfirmed cached 20,000 sat UTXO funded by transaction
`dup` and the same transaction `dup` in the mempool snapshot paying 20,000
sat to the address — yields `pending_balance = 40000`: the single 20,000 sat
payment is counted twice, because `calculateBalances` adds every incoming
mempool amount with no de-duplication. -/
theorem c1_pending_double_count :
    (walletBalanceCall engineDemoState aDemo 5 [rawDupUtxo] [rawDupMempoolTx]).1.pending_balance
      = 40000 ∧
    (walletBalanceCall engineDemoState aDemo 5 [rawDupUtxo] [rawDupMempoolTx]).1.total_balance
      = 40000 ∧
    rawDupUtxo.txid = rawDupMempoolTx.txid ∧ rawDupUtxo.value = 20000 ∧
    mempoolRxAmt aDemo rawDupMempoolTx = 20000 := by
  decide

/-- Claim C2 (code is wrong): the non-replaceable candidate does carry the
maximum sequence value `0xffffffff`, but the candidate the code labels
"RBF enabled" carries sequence `0xfffffffe` — equal to, not strictly below,
the BIP125 opt-in threshold `0xFFFFFFFE` — in both conflict-building
endpoints, so it does not signal replaceability. -/
theorem c2_replaceable_sequence_at_threshold :
    fsaSeqs (finalSequenceAttack fsaDemoReq) = some (SEQ_FINAL, SEQ_CODE_RBF) ∧
    pairSeqs (identicalInputsPair iieDemoUtxo "tb1qm" "tb1qa") =
      some (SEQ_FINAL, SEQ_CODE_RBF) ∧
    SEQ_FINAL = 0xffffffff ∧
    SEQ_CODE_RBF = RBF_THRESHOLD ∧
    rbfSignaling SEQ_CODE_RBF = false := by
  have h1 : jsCeil ((2250 : ℚ)) = (2250 : ℤ) := by
    rw [show ((2250 : ℚ)) = (((2250 : ℤ)) : ℚ) by norm_num]
    exact jsCeil_intCast 2250
  have h2 : jsCeil ((3375 : ℚ)) = (3375 : ℤ) := by
    rw [show ((3375 : ℚ)) = (((3375 : ℤ)) : ℚ) by norm_num]
    exact jsCeil_intCast 3375
  refine ⟨?_, by decide, by decide, by decide, by decide⟩
  simp only [finalSequenceAttack, fsaDemoReq]
  norm_num [h1, h2, buildCandidate, SATOSHI_MAX, fsaSeqs, exceptOk, SEQ_FINAL, SEQ_CODE_RBF]

/-- Claim C3: every candidate either endpoint produces satisfies
output value + fee = input value exactly, and the two candidates of a
conflict pair reference the identical outpoint. -/
theorem c3_conservation_shared_outpoint :
    (∀ (r : FsaRequest) (resp : FsaResponse), finalSequenceAttack r = .ok resp →
      resp.tx_merchant.outputValue + resp.tx_merchant.fee = r.utxo.value ∧
      resp.tx_attacker.outputValue + resp.tx_attacker.fee = r.utxo.value ∧
      resp.tx_merchant.input = resp.tx_attacker.input ∧
      resp.tx_merchant.input = { txid := r.utxo.txid, vout := r.utxo.vout }) ∧
    (∀ (u : UtxoRef) (m a : String) (p : TxPair), identicalInputsPair u m a = .ok p →
      p.tx_merchant.outputValue + p.tx_merchant.fee = u.value ∧
      p.tx_attacker.outputValue + p.tx_attacker.fee = u.value ∧
      p.tx_merchant.input = p.tx_attacker.input) := by
  constructor
  · intro r resp h
    unfold finalSequenceAttack at h
    split at h
    · simp at h
    split at h
    · simp at h
    split at h
    · simp at h
    split at h
    · simp at h
    rename_i tx1 heq1
    split at h
    · simp at h
    rename_i tx2 heq2
    cases h
    obtain ⟨e1, i1, s1, f1⟩ := buildCandidate_ok _ _ _ _ _ heq1
    obtain ⟨e2, i2, s2, f2⟩ := buildCandidate_ok _ _ _ _ _ heq2
    exact ⟨e1, e2, by rw [i1, i2], i1⟩
  · intro u m a p h
    unfold identicalInputsPair at h
    split at h
    · simp at h
    rename_i tx1 heq1
    split at h
    · simp at h
    rename_i tx2 heq2
    cases h
    obtain ⟨e1, i1, s1, f1⟩ := buildCandidate_ok _ _ _ _ _ heq1
    obtain ⟨e2, i2, s2, f2⟩ := buildCandidate_ok _ _ _ _ _ heq2
    exact ⟨e1, e2, by rw [i1, i2]⟩

/-- Witness for C3: the Scenario A request builds successfully and the
conservation and shared-outpoint conclusions hold for its response. -/
theorem c3_conservation_witness :
    finalSequenceAttack fsaDemoReq = .ok fsaDemoResp ∧
    (fsaDemoResp.tx_merchant.outputValue + fsaDemoResp.tx_merchant.fee
        = fsaDemoReq.utxo.value ∧
     fsaDemoResp.tx_attacker.outputValue + fsaDemoResp.tx_attacker.fee
        = fsaDemoReq.utxo.value ∧
     fsaDemoResp.tx_merchant.input = fsaDemoResp.tx_attacker.input ∧
     fsaDemoResp.tx_merchant.input =
        { txid := fsaDemoReq.utxo.txid, vout := fsaDemoReq.utxo.vout }) := by
  have h1 : jsCeil ((2250 : ℚ)) = (2250 : ℤ) := by
    rw [show ((2250 : ℚ)) = (((2250 : ℤ)) : ℚ) by norm_num]
    exact jsCeil_intCast 2250
  have h2 : jsCeil ((3375 : ℚ)) = (3375 : ℤ) := by
    rw [show ((3375 : ℚ)) = (((3375 : ℤ)) : ℚ) by norm_num]
    exact jsCeil_intCast 3375
  have hok : finalSequenceAttack fsaDemoReq = .ok fsaDemoResp := by
    simp only [finalSequenceAttack, fsaDemoReq]
    norm_num [h1, h2, buildCandidate, SATOSHI_MAX, fsaDemoResp, SEQ_FINAL, SEQ_CODE_RBF]
  exact ⟨hok, c3_conservation_shared_outpoint.1 fsaDemoReq fsaDemoResp hok⟩

/-- Counterexample to C4: at input value 3,375 sat and fee rate 15 the
attacker candidate's computed output value is exactly 0, yet the build
succeeds (no error of any kind); at input value 1,000 sat the computed
output value is negative and the endpoint fails with the serialization
library's generic internal error — there is no insufficient-funds error. -/
theorem c4_no_insufficient_funds_error :
    fsaAttackerOut (finalSequenceAttack fsaZeroReq) = some 0 ∧
    finalSequenceAttack fsaNegReq = .error (.internal satoshiRangeMsg) := by
  have h1 : jsCeil ((2250 : ℚ)) = (2250 : ℤ) := by
    rw [show ((2250 : ℚ)) = (((2250 : ℤ)) : ℚ) by norm_num]
    exact jsCeil_intCast 2250
  have h2 : jsCeil ((3375 : ℚ)) = (3375 : ℤ) := by
    rw [show ((3375 : ℚ)) = (((3375 : ℤ)) : ℚ) by norm_num]
    exact jsCeil_intCast 3375
  constructor
  · simp only [finalSequenceAttack, fsaZeroReq, fsaDemoReq]
    norm_num [h1, h2, buildCandidate, SATOSHI_MAX, fsaAttackerOut, exceptOk]
  · simp only [finalSequenceAttack, fsaNegReq, fsaDemoReq]
    norm_num [h1, h2, buildCandidate, SATOSHI_MAX]

/-- Amended C4: for a request that passes validation, with a non-negative
fee rate and an input value within the serialization bound, the build
succeeds exactly when both computed output values are non-negative (so a
zero output value succeeds), and any failure past validation is the generic
internal (HTTP 500) error carrying the library's range-check message —
never an insufficient-funds-specific error. -/
theorem c4_nonpositive_output_generic_error (r : FsaRequest)
    (hf : r.fields_present = true) (hw : r.wif_valid = true)
    (hv : r.victim_valid = true) (ha : r.attacker_valid = true) (hrate : 0 ≤ r.fee_rate)
    (hmax : (r.utxo.value : Int) ≤ SATOSHI_MAX) :
    ((exceptOk (finalSequenceAttack r)).isSome = true ↔
      0 ≤ (r.utxo.value : Int) - jsCeil (150 * r.fee_rate) ∧
      0 ≤ (r.utxo.value : Int) - jsCeil (150 * (r.fee_rate * (3 / 2 : ℚ)))) ∧
    (∀ e, finalSequenceAttack r = .error e → e = .internal satoshiRangeMsg) := by
  have hfee1 : 0 ≤ jsCeil (150 * r.fee_rate) := by
    unfold jsCeil
    exact Int.ceil_nonneg (by positivity)
  have hfee2 : 0 ≤ jsCeil (150 * (r.fee_rate * (3 / 2 : ℚ))) := by
    unfold jsCeil
    exact Int.ceil_nonneg (by positivity)
  unfold finalSequenceAttack
  rw [hf, hw, hv, ha]
  by_cases h1 : 0 ≤ (r.utxo.value : Int) - jsCeil (150 * r.fee_rate)
  · by_cases h2 : 0 ≤ (r.utxo.value : Int) - jsCeil (150 * (r.fee_rate * (3 / 2 : ℚ)))
    · simp [buildCandidate, h1, h2, exceptOk,
        (by omega : (r.utxo.value : Int) - jsCeil (150 * r.fee_rate) ≤ SATOSHI_MAX),
        (by omega :
          (r.utxo.value : Int) - jsCeil (150 * (r.fee_rate * (3 / 2 : ℚ))) ≤ SATOSHI_MAX)]
    · simp [buildCandidate, h1, h2, exceptOk,
        (by omega : (r.utxo.value : Int) - jsCeil (150 * r.fee_rate) ≤ SATOSHI_MAX)]
  · simp [buildCandidate, h1, exceptOk]

/-- Witness for the amended C4: the Scenario A request satisfies all the
hypotheses and its build succeeds. -/
theorem c4_generic_error_witness :
    (exceptOk (finalSequenceAttack fsaDemoReq)).isSome = true := by
  have h1 : jsCeil ((2250 : ℚ)) = (2250 : ℤ) := by
    rw [show ((2250 : ℚ)) = (((2250 : ℤ)) : ℚ) by norm_num]
    exact jsCeil_intCast 2250
  have h2 : jsCeil ((3375 : ℚ)) = (3375 : ℤ) := by
    rw [show ((3375 : ℚ)) = (((3375 : ℤ)) : ℚ) by norm_num]
    exact jsCeil_intCast 3375
  refine (c4_nonpositive_output_generic_error fsaDemoReq rfl rfl rfl rfl
    (by norm_num [fsaDemoReq]) (by norm_num [fsaDemoReq, SATOSHI_MAX])).1.mpr ⟨?_, ?_⟩
  · norm_num [fsaDemoReq, h1]
  · norm_num [fsaDemoReq, h2]

/-- Claim C5 (code is wrong): removal is supposed to be terminal, with no
further reconnection attempt.  Evaluating the lifecycle at the failing
input — `removeAddress` on a monitored address with an open websocket, then
the released connection's `close` event, then the 5-second retry timer —
shows `startWebSocketMonitor` finds the handle deleted and opens a fresh
monitor: the removed (and still unmonitored) address has a live websocket
again. -/
theorem c5_reconnect_after_removal :
    (removeAddress engineMonitoredState aDemo).addresses = [] ∧
    (removeAddress engineMonitoredState aDemo).websockets = [] ∧
    (retryTimerFires (wsCloseEvent (removeAddress engineMonitoredState aDemo) aDemo)
      aDemo).websockets = [aDemo] ∧
    (retryTimerFires (wsCloseEvent (removeAddress engineMonitoredState aDemo) aDemo)
      aDemo).addresses = [] := by
  decide

/-- Counterexample to C6: a fetch in flight at removal time that completes
afterwards is not discarded — its completion writes the normalized result
back into the UTXO map, re-creating cached UTXO state for the removed
address (while the immediate absence from `getFullStatus` does hold). -/
theorem c6_inflight_fetch_recreates_cache :
    lookupKey aDemo
      (fetchUtxosOk (removeAddress engineCachedState aDemo) aDemo [rawConfDemo]).utxos =
      some [engineNormalizeUtxo rawConfDemo] ∧
    getFullStatus (removeAddress engineCachedState aDemo) 0 = [] := by
  decide

/-- Amended C6: removing an address makes its entry absent from
`getFullStatus()` immediately and it stays absent even after an in-flight
fetch completes (the status enumerates only monitored addresses), but the
in-flight fetch's result is not discarded: its completion re-creates the
cached UTXO entry for the removed address. -/
theorem c6_status_absent_cache_recreated (s : EngineState) (a : String)
    (raw : List RawUtxo) (now : Nat) :
    lookupKey a (getFullStatus (removeAddress s a) now) = none ∧
    lookupKey a (getFullStatus (fetchUtxosOk (removeAddress s a) a raw) now) = none ∧
    lookupKey a (fetchUtxosOk (removeAddress s a) a raw).utxos =
      some (raw.map engineNormalizeUtxo) := by
  refine ⟨?_, ?_, ?_⟩
  · exact lookupKey_map_eq_none _ _ _ (by simp [removeAddress])
  · exact lookupKey_map_eq_none _ _ _ (by simp [removeAddress, fetchUtxosOk])
  · exact lookupKey_insertKey _ _ _

/-- Counterexample to C7: with a previously cached (but expired) entry
present for the key, a failed fetch answers a 500 error body — not the
prior outputs with their age — although the cached entry itself is left
unchanged. -/
theorem c7_failed_fetch_returns_error :
    getUtxosHandler p0DemoCache p0DemoKey 40000 false (.failure "timeout of 10000ms exceeded")
      = (.serverError "timeout of 10000ms exceeded", p0DemoCache) ∧
    isSuccessResponse
      (getUtxosHandler p0DemoCache p0DemoKey 40000 false
        (.failure "timeout of 10000ms exceeded")).1 = false := by
  decide

/-- Amended C7: for every key holding a previously cached entry, a failed
fetch leaves that cached entry unchanged, but the prior outputs with their
age are served only while the entry is within the 30-second TTL (the
cache-hit branch, where no fetch happens); once the entry has expired, a
failed fetch answers a 500 error (or the graceful empty not-found body on an
upstream 404), not the prior outputs. -/
theorem c7_failed_fetch_preserves_cache (cache : UtxoCache) (key : String) (now : Nat)
    (only : Bool) (msg : String) (e : CacheEntry) (h : lookupKey key cache = some e) :
    (getUtxosHandler cache key now only (.failure msg)).2 = cache ∧
    (CACHE_TTL ≤ now - e.timestamp →
      (getUtxosHandler cache key now only (.failure msg)).1 = .serverError msg ∧
      (getUtxosHandler cache key now only .notFound).1 = .notFound ∧
      (getUtxosHandler cache key now only .notFound).2 = cache) ∧
    (now - e.timestamp < CACHE_TTL →
      (getUtxosHandler cache key now only (.failure msg)).1 =
        .success (if only then e.data.filter (·.is_spendable) else e.data) true
          (some (now - e.timestamp))) := by
  unfold getUtxosHandler
  rw [h]
  by_cases hfresh : now - e.timestamp < CACHE_TTL
  · simp only [if_pos hfresh]
    refine ⟨by trivial, ?_, fun _ => by trivial⟩
    intro hle
    exact ((by omega : False)).elim
  · simp only [if_neg hfresh]
    refine ⟨by trivial, fun _ => ⟨by trivial, by trivial, by trivial⟩, ?_⟩
    intro hlt
    exact absurd hlt hfresh

/-- Witness for the amended C7: the demo cache holds an entry for the demo
key; at clock 40,000 ms (entry expired) a failed fetch leaves the cache
unchanged and answers the 500 error body. -/
theorem c7_preserves_cache_witness :
    (getUtxosHandler p0DemoCache p0DemoKey 40000 false (.failure "boom")).2 = p0DemoCache ∧
    (getUtxosHandler p0DemoCache p0DemoKey 40000 false (.failure "boom")).1 =
      .serverError "boom" := by
  have h : lookupKey p0DemoKey p0DemoCache = some p0DemoEntry := by decide
  exact ⟨(c7_failed_fetch_preserves_cache p0DemoCache p0DemoKey 40000 false "boom"
            p0DemoEntry h).1,
         ((c7_failed_fetch_preserves_cache p0DemoCache p0DemoKey 40000 false "boom"
            p0DemoEntry h).2.1 (by decide)).1⟩

/-- Counterexample to C8: two `GET /wallet/balance` calls 10 seconds apart
(within the 30-second TTL) with identical upstream data do not return
identical results — the route re-fetches every time and stamps a fresh
`last_updated`, and no `from_cache` marker exists on this route. -/
theorem c8_balance_responses_differ :
    (walletBalanceCall engineDemoState aDemo 0 [rawConfDemo] [rawDupMempoolTx]).1 ≠
    (walletBalanceCall
      (walletBalanceCall engineDemoState aDemo 0 [rawConfDemo] [rawDupMempoolTx]).2
      aDemo 10000 [rawConfDemo] [rawDupMempoolTx]).1 := by
  decide

/-- Amended C8: two `GET /wallet/balance` calls with no new upstream
activity agree on every balance field — spendable, pending, total,
unspendable, the counts — while each response carries its own call-time
`last_updated` stamp; the route performs a fresh fetch on every call and has
no `from_cache` marker. -/
theorem c8_balance_fields_stable (s : EngineState) (a : String) (t1 t2 : Nat)
    (raws : List RawUtxo) (rawm : List RawMempoolTx) :
    ((walletBalanceCall s a t1 raws rawm).1.spendable_balance =
      (walletBalanceCall (walletBalanceCall s a t1 raws rawm).2 a t2 raws
        rawm).1.spendable_balance) ∧
    ((walletBalanceCall s a t1 raws rawm).1.pending_balance =
      (walletBalanceCall (walletBalanceCall s a t1 raws rawm).2 a t2 raws
        rawm).1.pending_balance) ∧
    ((walletBalanceCall s a t1 raws rawm).1.total_balance =
      (walletBalanceCall (walletBalanceCall s a t1 raws rawm).2 a t2 raws
        rawm).1.total_balance) ∧
    ((walletBalanceCall s a t1 raws rawm).1.unspendable_balance =
      (walletBalanceCall (walletBalanceCall s a t1 raws rawm).2 a t2 raws
        rawm).1.unspendable_balance) ∧
    ((walletBalanceCall s a t1 raws rawm).1.utxo_count =
      (walletBalanceCall (walletBalanceCall s a t1 raws rawm).2 a t2 raws
        rawm).1.utxo_count) ∧
    ((walletBalanceCall s a t1 raws rawm).1.mempool_tx_count =
      (walletBalanceCall (walletBalanceCall s a t1 raws rawm).2 a t2 raws
        rawm).1.mempool_tx_count) ∧
    (walletBalanceCall s a t1 raws rawm).1.last_updated = t1 ∧
    (walletBalanceCall (walletBalanceCall s a t1 raws rawm).2 a t2 raws
      rawm).1.last_updated = t2 := by
  rw [walletBalanceCall_fst, walletBalanceCall_fst]
  unfold calculateBalances
  refine ⟨rfl, ?_, ?_, rfl, rfl, by simp, rfl, rfl⟩
  · show (((raws.map engineNormalizeUtxo).filter (·.is_pending)).map (·.value)).sum +
        (((rawm.map (engineNormalizeMempoolTx a t1)).filter (·.is_incoming)).map
          (·.amount)).sum =
      (((raws.map engineNormalizeUtxo).filter (·.is_pending)).map (·.value)).sum +
        (((rawm.map (engineNormalizeMempoolTx a t2)).filter (·.is_incoming)).map
          (·.amount)).sum
    rw [mempool_incoming_sum_indep a t1 t2]
  · show _ + ((((raws.map engineNormalizeUtxo).filter (·.is_pending)).map (·.value)).sum +
        (((rawm.map (engineNormalizeMempoolTx a t1)).filter (·.is_incoming)).map
          (·.amount)).sum) =
      _ + ((((raws.map engineNormalizeUtxo).filter (·.is_pending)).map (·.value)).sum +
        (((rawm.map (engineNormalizeMempoolTx a t2)).filter (·.is_incoming)).map
          (·.amount)).sum)
    rw [mempool_incoming_sum_indep a t1 t2]

/-- Claim C9 (Scenario A): for an input of 100,000 sat at fee rate 15, the
builder produces candidate 1 with fee exactly 2,250 sat (ceil(150 × 15))
and output value 97,750 sat, and candidate 2 with fee exactly 3,375 sat
(ceil(150 × 22.5)) and output value 96,625 sat, both spending the same
outpoint. -/
theorem c9_concrete_fees_and_outputs :
    fsaData (finalSequenceAttack fsaDemoReq) =
      some (2250, 97750, 3375, 96625,
        { txid := "aa99", vout := 0 }, { txid := "aa99", vout := 0 }) := by
  have h1 : jsCeil ((2250 : ℚ)) = (2250 : ℤ) := by
    rw [show ((2250 : ℚ)) = (((2250 : ℤ)) : ℚ) by norm_num]
    exact jsCeil_intCast 2250
  have h2 : jsCeil ((3375 : ℚ)) = (3375 : ℤ) := by
    rw [show ((3375 : ℚ)) = (((3375 : ℤ)) : ℚ) by norm_num]
    exact jsCeil_intCast 3375
  simp only [finalSequenceAttack, fsaDemoReq]
  norm_num [h1, h2, buildCandidate, SATOSHI_MAX, fsaData, exceptOk, SEQ_FINAL, SEQ_CODE_RBF]

/-- Claim C10: every UTXO record produced by any of the three normalizers
carries `confirmations` equal to 0 or 1, never the actual confirmation
depth; the engine normalizer yields 1 exactly for a confirmed status with a
(truthy) block height, every normalizer yields 0 for an unconfirmed status,
and consequently a confirmation threshold greater than 1 is never satisfied
by freshly fetched data. -/
theorem c10_confirmations_capped (u : RawUtxo) (t : Nat) :
    ((engineNormalizeUtxo u).confirmations = 0 ∨ (engineNormalizeUtxo u).confirmations = 1) ∧
    ((p0NormalizeUtxo u).confirmations = 0 ∨ (p0NormalizeUtxo u).confirmations = 1) ∧
    ((wrNormalizeUtxo u).confirmations = 0 ∨ (wrNormalizeUtxo u).confirmations = 1) ∧
    ((engineNormalizeUtxo u).confirmations = 1 ↔
      u.status.confirmed = true ∧ jsTruthyNat u.status.block_height = true) ∧
    (u.status.confirmed = false →
      (engineNormalizeUtxo u).confirmations = 0 ∧ (p0NormalizeUtxo u).confirmations = 0 ∧
      (wrNormalizeUtxo u).confirmations = 0) ∧
    (1 < t →
      (engineNormalizeUtxo u).confirmations < t ∧ (p0NormalizeUtxo u).confirmations < t ∧
      (wrNormalizeUtxo u).confirmations < t) := by
  rcases u with ⟨tx, vo, va, ⟨conf, bh, bt⟩⟩
  cases conf <;> by_cases hbh : jsTruthyNat bh = true <;>
    simp [engineNormalizeUtxo, p0NormalizeUtxo, wrNormalizeUtxo, hbh] <;> omega

/-- Witness for C10: a confirmed demo UTXO at the safe threshold 6. -/
theorem c10_confirmations_witness :
    1 < 6 ∧
    ((engineNormalizeUtxo rawConfDemo).confirmations < 6 ∧
     (p0NormalizeUtxo rawConfDemo).confirmations < 6 ∧
     (wrNormalizeUtxo rawConfDemo).confirmations < 6) :=
  ⟨by decide, (c10_confirmations_capped rawConfDemo 6).2.2.2.2.2 (by decide)⟩
